import Mathlib

/-!
# ARO-HCP: Cluster Service clients and frontend lifecycle

A shallow embedding of `internal/ocm/ocm.go` (the live and the mock Cluster Service
client) and of `FrontendOpts.Run` in `frontend/cmd/cmd.go`.

Conventions of the embedding:

* a Go `map[K]V` is read through its lookup function `K → Option V` (`none` = absent key);
* a Go `error` is a value carrying its message; `nil` is `none` / `Except.ok`;
* a pointer to an SDK object is the object it points to (arguments are non-nil);
* the stores of a mock client are allocated maps, as `NewMockClusterServiceClient`
  makes them;
* a method with a pointer receiver that mutates the receiver returns the new receiver;
* the mock client never reads its `context.Context` argument, which is dropped there;
  the live client hands it to `SendContext`, where it is kept.
-/

namespace AroHcp

/-! ## Go maps and errors -/

/-- A Go map, read through its lookup function. -/
abbrev GoMap (K V : Type) := K → Option V

/-- `make(map[K]V)`: the allocated map with no key. -/
def GoMap.empty {K V : Type} : GoMap K V := fun _ => none

/-- `m[k] = v`. -/
def GoMap.set {K V : Type} [DecidableEq K] (m : GoMap K V) (k : K) (v : V) : GoMap K V :=
  fun x => if x = k then some v else m x

/-- `delete(m, k)`. -/
def GoMap.delete {K V : Type} [DecidableEq K] (m : GoMap K V) (k : K) : GoMap K V :=
  fun x => if x = k then none else m x

/-- A Go `error` value, identified by its message. -/
structure GoError where
  msg : String
  deriving DecidableEq, Repr

deriving instance DecidableEq for Except

/-- `fmt.Errorf("Not Found")`. -/
def errNotFound : GoError := ⟨"Not Found"⟩

/-- `fmt.Errorf("empty response body")`. -/
def errEmptyBody : GoError := ⟨"empty response body"⟩

/-! ## Resource identifiers (`internalid.go`, not part of the sources at hand) -/

/-- Kind of resource an identifier addresses. -/
inductive Kind where
  | Cluster
  | NodePool
  deriving DecidableEq, Repr

/-- Modelled from the spec: the `InternalID` type of `internalid.go`, an immutable value
wrapping a path string (the field is named `path` in `ocm.go`, line 296). -/
structure InternalID where
  path : String
  deriving DecidableEq, Repr

/-- Splits a path at every `/`, keeping empty segments. -/
def segments : List Char → List (List Char)
  | [] => [[]]
  | c :: cs =>
    match segments cs with
    | [] => [[c]]
    | seg :: rest => if c = '/' then [] :: seg :: rest else (c :: seg) :: rest

/-- Modelled from the spec: the resource-path grammar of `internalid.go`,
`/<api-root>/clusters/{clusterId}[/node_pools/{nodePoolId}]` rooted at the known prefix
`/api/clusters_mgmt/v1`; a path outside the grammar has no kind. -/
def kindOfPath (p : String) : Option Kind :=
  let segs := (segments p.data).map String.mk
  if segs.take 5 = ["", "api", "clusters_mgmt", "v1", "clusters"] then
    match segs.drop 5 with
    | [cid] => if cid = "" then none else some Kind.Cluster
    | [cid, lit, npid] =>
      if cid = "" ∨ lit ≠ "node_pools" ∨ npid = "" then none else some Kind.NodePool
    | _ => none
  else none

/-- Modelled from the spec: `NewInternalID` of `internalid.go`. Construction validates the
path against the grammar and fails with a format error otherwise; normalization is
case-preserving and exact. -/
def NewInternalID (path : String) : Except GoError InternalID :=
  match kindOfPath path with
  | some _ => .ok ⟨path⟩
  | none => .error ⟨"Invalid InternalID: " ++ path⟩

/-- Modelled from the spec: `GenerateClusterHREF` of `internalid.go`, the address
`/<api-root>/clusters/{clusterId}` of the cluster named `clusterName`. -/
def GenerateClusterHREF (clusterName : String) : String :=
  "/api/clusters_mgmt/v1" ++ "/clusters/" ++ clusterName

/-- Modelled from the spec: `GenerateNodePoolHREF` of `internalid.go`, the child path
`{clusterPath}/node_pools/{nodePoolId}` under the owning cluster. -/
def GenerateNodePoolHREF (clusterPath : String) (nodePoolName : String) : String :=
  clusterPath ++ "/node_pools/" ++ nodePoolName

/-- Modelled from the spec: the `%s` rendering of an `InternalID` (its `String` method in
`internalid.go`), used only inside error messages. -/
def InternalID.render (id : InternalID) : String := id.path

/-! ## SDK objects (`ocm-sdk-go/clustersmgmt/v1`)

Only the attributes `ocm.go` reads or writes are kept. An attribute whose presence bit is
clear is `none`; its getter then returns the zero value. -/

/-- `map[string]string` of provisioning-control properties. -/
abbrev PropertyBag := GoMap String String

/-- `cmv1.Cluster`. -/
structure Cluster where
  id : Option String
  href : Option String
  name : Option String
  properties : Option PropertyBag

/-- `(*Cluster).Name`. -/
def Cluster.Name (c : Cluster) : String := c.name.getD ""

/-- `(*Cluster).HREF`. -/
def Cluster.HREF (c : Cluster) : String := c.href.getD ""

/-- `cmv1.ClusterBuilder`. -/
structure ClusterBuilder where
  id : Option String
  href : Option String
  name : Option String
  properties : Option PropertyBag

/-- `cmv1.NewCluster()`. -/
def NewCluster : ClusterBuilder := ⟨none, none, none, none⟩

/-- `(*ClusterBuilder).Copy`. -/
def ClusterBuilder.Copy (_b : ClusterBuilder) (object : Cluster) : ClusterBuilder :=
  ⟨object.id, object.href, object.name, object.properties⟩

/-- `(*ClusterBuilder).HREF`. -/
def ClusterBuilder.HREF (b : ClusterBuilder) (value : String) : ClusterBuilder :=
  { b with href := some value }

/-- `(*ClusterBuilder).Properties`. -/
def ClusterBuilder.Properties (b : ClusterBuilder) (value : PropertyBag) : ClusterBuilder :=
  { b with properties := some value }

/-- `(*ClusterBuilder).Build`: with no nested builder left to fail, it returns the object. -/
def ClusterBuilder.Build (b : ClusterBuilder) : Except GoError Cluster :=
  .ok ⟨b.id, b.href, b.name, b.properties⟩

/-- `cmv1.NodePool`. -/
structure NodePool where
  id : Option String
  href : Option String
  replicas : Option Int
  deriving DecidableEq, Repr

/-- `(*NodePool).ID`. -/
def NodePool.ID (n : NodePool) : String := n.id.getD ""

/-- `(*NodePool).HREF`. -/
def NodePool.HREF (n : NodePool) : String := n.href.getD ""

/-- `cmv1.NodePoolBuilder`. -/
structure NodePoolBuilder where
  id : Option String
  href : Option String
  replicas : Option Int

/-- `cmv1.NewNodePool()`. -/
def NewNodePool : NodePoolBuilder := ⟨none, none, none⟩

/-- `(*NodePoolBuilder).Copy`. -/
def NodePoolBuilder.Copy (_b : NodePoolBuilder) (object : NodePool) : NodePoolBuilder :=
  ⟨object.id, object.href, object.replicas⟩

/-- `(*NodePoolBuilder).HREF`. -/
def NodePoolBuilder.HREF (b : NodePoolBuilder) (value : String) : NodePoolBuilder :=
  { b with href := some value }

/-- `(*NodePoolBuilder).Build`. -/
def NodePoolBuilder.Build (b : NodePoolBuilder) : Except GoError NodePool :=
  .ok ⟨b.id, b.href, b.replicas⟩

/-! ## Property injection (`ocm.go`, lines 27-80 and 233-236) -/

/-- `getDefaultAdditionalProperities`: a fresh map holding the four baseline keys. -/
def getDefaultAdditionalProperities : PropertyBag :=
  (((GoMap.empty.set "provisioner_hostedcluster_step_enabled" "true").set
    "provisioner_managedcluster_step_enabled" "true").set
    "np_provisioner_provision_enabled" "true").set
    "np_provisioner_deprovision_enabled" "true"

/-! ## The live client (`ocm.go`, lines 48-215)

The remote Cluster Service and the SDK transport are the environment. One `SendContext`
of a request under a context gives a response and puts requests on the wire: one, none
(a context that is already cancelled), or several (a transport that retries). Every
operation returns its Go result together with the requests that went on the wire during
it, in order. -/

/-- HTTP method of an outbound request. -/
inductive Method where
  | GET
  | POST
  | PATCH
  | DELETE
  deriving DecidableEq, Repr

/-- Body attached to an outbound request. -/
inductive Payload where
  | empty
  | cluster (c : Cluster)
  | nodePool (n : NodePool)

/-- The request an operation hands to `SendContext`. -/
structure Request where
  method : Method
  path : String
  payload : Payload

/-- `context.Context`, as far as a call on the connection reads it. -/
structure Context where
  /-- Whether the context is cancelled or past its deadline when the call is made. -/
  cancelled : Bool
  deriving DecidableEq, Repr

/-- What one `SendContext` does: the response it returns and the requests it puts on the
wire. -/
structure Sent (ρ : Type) where
  response : ρ
  wire : List Request

/-- `sdk.Connection` together with the remote side: what one `SendContext` does for each
context and request. A response is an error or an answer whose `GetBody` may report no
body (`none`). -/
structure Connection where
  sendCluster : Context → Request → Sent (Except GoError (Option Cluster))
  sendNodePool : Context → Request → Sent (Except GoError (Option NodePool))
  sendDelete : Context → Request → Sent (Option GoError)

/-- `ClusterServiceClient`. -/
structure ClusterServiceClient where
  Conn : Connection
  ProvisionShardID : Option String
  ProvisionerNoOpProvision : Bool
  ProvisionerNoOpDeprovision : Bool

/-- Modelled from the spec: `InternalID.GetClusterClient` of `internalid.go`, the narrowing
accessor that succeeds only for Cluster-kind identifiers; the client handle is the path
its requests address. -/
def InternalID.GetClusterClient (id : InternalID) : Option String :=
  if kindOfPath id.path = some Kind.Cluster then some id.path else none

/-- Modelled from the spec: `InternalID.GetNodePoolClient` of `internalid.go`, the
narrowing accessor that succeeds only for NodePool-kind identifiers. -/
def InternalID.GetNodePoolClient (id : InternalID) : Option String :=
  if kindOfPath id.path = some Kind.NodePool then some id.path else none

namespace ClusterServiceClient

/-- `ClusterServiceClient.AddProperties`. -/
def AddProperties (csc : ClusterServiceClient) (builder : ClusterBuilder) : ClusterBuilder :=
  let additionalProperties := getDefaultAdditionalProperities
  let additionalProperties :=
    match csc.ProvisionShardID with
    | some shard => additionalProperties.set "provision_shard_id" shard
    | none => additionalProperties
  let additionalProperties :=
    if csc.ProvisionerNoOpProvision then
      additionalProperties.set "provisioner_noop_provision" "true"
    else additionalProperties
  let additionalProperties :=
    if csc.ProvisionerNoOpDeprovision then
      additionalProperties.set "provisioner_noop_deprovision" "true"
    else additionalProperties
  builder.Properties additionalProperties

/-- `ClusterServiceClient.GetCSCluster`. -/
def GetCSCluster (csc : ClusterServiceClient) (ctx : Context) (internalID : InternalID) :
    Except GoError Cluster × List Request :=
  match internalID.GetClusterClient with
  | none => (.error ⟨"OCM path is not a cluster: " ++ internalID.render⟩, [])
  | some client =>
    let sent := csc.Conn.sendCluster ctx ⟨Method.GET, client, Payload.empty⟩
    match sent.response with
    | .error err => (.error err, sent.wire)
    | .ok none => (.error errEmptyBody, sent.wire)
    | .ok (some cluster) => (.ok cluster, sent.wire)

/-- `ClusterServiceClient.PostCSCluster`. -/
def PostCSCluster (csc : ClusterServiceClient) (ctx : Context) (cluster : Cluster) :
    Except GoError Cluster × List Request :=
  let sent := csc.Conn.sendCluster ctx
    ⟨Method.POST, "/api/clusters_mgmt/v1/clusters", Payload.cluster cluster⟩
  match sent.response with
  | .error err => (.error err, sent.wire)
  | .ok none => (.error errEmptyBody, sent.wire)
  | .ok (some cluster) => (.ok cluster, sent.wire)

/-- `ClusterServiceClient.UpdateCSCluster`. -/
def UpdateCSCluster (csc : ClusterServiceClient) (ctx : Context) (internalID : InternalID)
    (cluster : Cluster) :
    Except GoError Cluster × List Request :=
  match internalID.GetClusterClient with
  | none => (.error ⟨"OCM path is not a cluster: " ++ internalID.render⟩, [])
  | some client =>
    let sent := csc.Conn.sendCluster ctx ⟨Method.PATCH, client, Payload.cluster cluster⟩
    match sent.response with
    | .error err => (.error err, sent.wire)
    | .ok none => (.error errEmptyBody, sent.wire)
    | .ok (some cluster) => (.ok cluster, sent.wire)

/-- `ClusterServiceClient.DeleteCSCluster`. -/
def DeleteCSCluster (csc : ClusterServiceClient) (ctx : Context) (internalID : InternalID) :
    Option GoError × List Request :=
  match internalID.GetClusterClient with
  | none => (some ⟨"OCM path is not a cluster: " ++ internalID.render⟩, [])
  | some client =>
    let sent := csc.Conn.sendDelete ctx ⟨Method.DELETE, client, Payload.empty⟩
    (sent.response, sent.wire)

/-- `ClusterServiceClient.GetCSNodePool`. -/
def GetCSNodePool (csc : ClusterServiceClient) (ctx : Context) (internalID : InternalID) :
    Except GoError NodePool × List Request :=
  match internalID.GetNodePoolClient with
  | none => (.error ⟨"OCM path is not a node pool: " ++ internalID.render⟩, [])
  | some client =>
    let sent := csc.Conn.sendNodePool ctx ⟨Method.GET, client, Payload.empty⟩
    match sent.response with
    | .error err => (.error err, sent.wire)
    | .ok none => (.error errEmptyBody, sent.wire)
    | .ok (some nodePool) => (.ok nodePool, sent.wire)

/-- `ClusterServiceClient.PostCSNodePool`. -/
def PostCSNodePool (csc : ClusterServiceClient) (ctx : Context) (clusterInternalID : InternalID)
    (nodePool : NodePool) :
    Except GoError NodePool × List Request :=
  match clusterInternalID.GetClusterClient with
  | none => (.error ⟨"OCM path is not a cluster: " ++ clusterInternalID.render⟩, [])
  | some client =>
    let sent := csc.Conn.sendNodePool ctx ⟨Method.POST, client ++ "/node_pools", Payload.nodePool nodePool⟩
    match sent.response with
    | .error err => (.error err, sent.wire)
    | .ok none => (.error errEmptyBody, sent.wire)
    | .ok (some nodePool) => (.ok nodePool, sent.wire)

/-- `ClusterServiceClient.UpdateCSNodePool`. -/
def UpdateCSNodePool (csc : ClusterServiceClient) (ctx : Context) (internalID : InternalID)
    (nodePool : NodePool) :
    Except GoError NodePool × List Request :=
  match internalID.GetNodePoolClient with
  | none => (.error ⟨"OCM path is not a node pool: " ++ internalID.render⟩, [])
  | some client =>
    let sent := csc.Conn.sendNodePool ctx ⟨Method.PATCH, client, Payload.nodePool nodePool⟩
    match sent.response with
    | .error err => (.error err, sent.wire)
    | .ok none => (.error errEmptyBody, sent.wire)
    | .ok (some nodePool) => (.ok nodePool, sent.wire)

/-- `ClusterServiceClient.DeleteCSNodePool`. -/
def DeleteCSNodePool (csc : ClusterServiceClient) (ctx : Context) (internalID : InternalID) :
    Option GoError × List Request :=
  match internalID.GetNodePoolClient with
  | none => (some ⟨"OCM path is not a node pool: " ++ internalID.render⟩, [])
  | some client =>
    let sent := csc.Conn.sendDelete ctx ⟨Method.DELETE, client, Payload.empty⟩
    (sent.response, sent.wire)

end ClusterServiceClient

/-! ## The mock client (`ocm.go`, lines 217-329)

Operations that write to the store return the store after the call. -/

/-- `MockClusterServiceClient`: the two in-memory stores. -/
structure MockClusterServiceClient where
  clusters : GoMap InternalID Cluster
  nodePools : GoMap InternalID NodePool

/-- `NewMockClusterServiceClient`. -/
def NewMockClusterServiceClient : MockClusterServiceClient :=
  ⟨GoMap.empty, GoMap.empty⟩

namespace MockClusterServiceClient

/-- `MockClusterServiceClient.AddProperties`. -/
def AddProperties (_csc : MockClusterServiceClient) (builder : ClusterBuilder) :
    ClusterBuilder :=
  let additionalProperties := getDefaultAdditionalProperities
  builder.Properties additionalProperties

/-- `MockClusterServiceClient.GetCSCluster`. -/
def GetCSCluster (mcsc : MockClusterServiceClient) (internalID : InternalID) :
    Except GoError Cluster :=
  match mcsc.clusters internalID with
  | none => .error ⟨"empty response body"⟩
  | some cluster => .ok cluster

/-- `MockClusterServiceClient.PostCSCluster`. -/
def PostCSCluster (mcsc : MockClusterServiceClient) (cluster : Cluster) :
    Except GoError Cluster × MockClusterServiceClient :=
  let href := GenerateClusterHREF cluster.Name
  let clusterBuilder := NewCluster
  match ((clusterBuilder.Copy cluster).HREF href).Build with
  | .error err => (.error err, mcsc)
  | .ok enrichedCluster =>
    match NewInternalID href with
    | .error err => (.error err, mcsc)
    | .ok internalID =>
      (.ok enrichedCluster, { mcsc with clusters := mcsc.clusters.set internalID enrichedCluster })

/-- `MockClusterServiceClient.UpdateCSCluster`. -/
def UpdateCSCluster (mcsc : MockClusterServiceClient) (internalID : InternalID)
    (cluster : Cluster) : Except GoError Cluster × MockClusterServiceClient :=
  match mcsc.clusters internalID with
  | none => (.error ⟨"Not Found"⟩, mcsc)
  | some _ => (.ok cluster, { mcsc with clusters := mcsc.clusters.set internalID cluster })

/-- `MockClusterServiceClient.DeleteCSCluster`. -/
def DeleteCSCluster (mcsc : MockClusterServiceClient) (internalID : InternalID) :
    Option GoError × MockClusterServiceClient :=
  match mcsc.clusters internalID with
  | none => (some ⟨"Not Found"⟩, mcsc)
  | some _ => (none, { mcsc with clusters := mcsc.clusters.delete internalID })

/-- `MockClusterServiceClient.GetCSNodePool`. -/
def GetCSNodePool (mcsc : MockClusterServiceClient) (internalID : InternalID) :
    Except GoError NodePool :=
  match mcsc.nodePools internalID with
  | none => .error ⟨"empty response body"⟩
  | some nodePool => .ok nodePool

/-- `MockClusterServiceClient.PostCSNodePool`. -/
def PostCSNodePool (mcsc : MockClusterServiceClient) (clusterInternalID : InternalID)
    (nodePool : NodePool) : Except GoError NodePool × MockClusterServiceClient :=
  let href := GenerateNodePoolHREF clusterInternalID.path nodePool.ID
  let npBuilder := NewNodePool
  match ((npBuilder.Copy nodePool).HREF href).Build with
  | .error err => (.error err, mcsc)
  | .ok enrichedNodePool =>
    match NewInternalID href with
    | .error err => (.error err, mcsc)
    | .ok internalID =>
      (.ok enrichedNodePool,
        { mcsc with nodePools := mcsc.nodePools.set internalID enrichedNodePool })

/-- `MockClusterServiceClient.UpdateCSNodePool`. -/
def UpdateCSNodePool (mcsc : MockClusterServiceClient) (internalID : InternalID)
    (nodePool : NodePool) : Except GoError NodePool × MockClusterServiceClient :=
  match mcsc.nodePools internalID with
  | none => (.error ⟨"Not Found"⟩, mcsc)
  | some _ => (.ok nodePool, { mcsc with nodePools := mcsc.nodePools.set internalID nodePool })

/-- `MockClusterServiceClient.DeleteCSNodePool`. -/
def DeleteCSNodePool (mcsc : MockClusterServiceClient) (internalID : InternalID) :
    Option GoError × MockClusterServiceClient :=
  match mcsc.nodePools internalID with
  | none => (some ⟨"Not Found"⟩, mcsc)
  | some _ => (none, { mcsc with nodePools := mcsc.nodePools.delete internalID })

end MockClusterServiceClient

/-- The result the live client derives from the outcome of one outbound call: the call's
error unchanged, `empty response body` for a response without body, else the body. -/
def resultOfCall {α : Type} : Except GoError (Option α) → Except GoError α
  | .error err => .error err
  | .ok none => .error errEmptyBody
  | .ok (some body) => .ok body

/-! ## Frontend lifecycle (`frontend/cmd/cmd.go`, lines 61-125)

`Run` is the controller: straight-line code that calls out to the runtime, the database,
the network and the processor. The embedding maps the answers of that outside world
(`RunEnv`) to the sequence of actions the controller performs, in program order. Time
passes at the two blocking calls, the receive on the signal channel and `f.Join()`, and
that is where signals arrive. A run that returns ends in `Event.Return`; a run whose
process is ended by a signal ends in `Event.ProcessEnded`; a run that blocks forever ends
in neither. -/

/-- The signals the model delivers to the process. -/
inductive Signal where
  | SIGHUP
  | SIGINT
  | SIGQUIT
  | SIGKILL
  | SIGTERM
  deriving DecidableEq, Repr

/-- `os.Signal.String`, as printed by `%s`. -/
def Signal.String : Signal → String
  | .SIGHUP => "hangup"
  | .SIGINT => "interrupt"
  | .SIGQUIT => "quit"
  | .SIGKILL => "killed"
  | .SIGTERM => "terminated"

theorem GoMap.set_same {K V : Type} [DecidableEq K] (m : GoMap K V) (k : K) (v : V) :
    m.set k v k = some v := by
  simp [GoMap.set]

theorem GoMap.set_other {K V : Type} [DecidableEq K] (m : GoMap K V) (k x : K) (v : V)
    (h : x ≠ k) : m.set k v x = m x := by
  simp [GoMap.set, h]

theorem GoMap.delete_same {K V : Type} [DecidableEq K] (m : GoMap K V) (k : K) :
    m.delete k k = none := by
  simp [GoMap.delete]

theorem GoMap.delete_other {K V : Type} [DecidableEq K] (m : GoMap K V) (k x : K)
    (h : x ≠ k) : m.delete k x = m x := by
  simp [GoMap.delete, h]

/-- A successful `NewInternalID` wraps exactly the path it was given. -/
theorem NewInternalID_ok {path : String} {id : InternalID}
    (h : NewInternalID path = .ok id) : id = ⟨path⟩ := by
  unfold NewInternalID at h
  split at h
  · cases h; rfl
  · cases h

/-- The mock's `PostCSCluster`, spelled out: it fails exactly when the generated HREF is
not a valid identifier, and otherwise stores the enriched copy under that HREF. -/
theorem MockClusterServiceClient.PostCSCluster_eq (mcsc : MockClusterServiceClient)
    (c : Cluster) :
    (NewInternalID (GenerateClusterHREF c.Name) =
        .error ⟨"Invalid InternalID: " ++ GenerateClusterHREF c.Name⟩ ∧
      mcsc.PostCSCluster c =
        (.error ⟨"Invalid InternalID: " ++ GenerateClusterHREF c.Name⟩, mcsc)) ∨
    (NewInternalID (GenerateClusterHREF c.Name) = .ok ⟨GenerateClusterHREF c.Name⟩ ∧
      mcsc.PostCSCluster c =
        (.ok { c with href := some (GenerateClusterHREF c.Name) },
          ⟨mcsc.clusters.set ⟨GenerateClusterHREF c.Name⟩
              { c with href := some (GenerateClusterHREF c.Name) }, mcsc.nodePools⟩)) := by
  unfold MockClusterServiceClient.PostCSCluster NewInternalID
  cases hk : kindOfPath (GenerateClusterHREF c.Name) <;>
    simp [ClusterBuilder.Build, ClusterBuilder.HREF, ClusterBuilder.Copy, NewCluster, hk]

/-- The mock's `PostCSNodePool`, spelled out in the same way. -/
theorem MockClusterServiceClient.PostCSNodePool_eq (mcsc : MockClusterServiceClient)
    (p : InternalID) (n : NodePool) :
    (NewInternalID (GenerateNodePoolHREF p.path n.ID) =
        .error ⟨"Invalid InternalID: " ++ GenerateNodePoolHREF p.path n.ID⟩ ∧
      mcsc.PostCSNodePool p n =
        (.error ⟨"Invalid InternalID: " ++ GenerateNodePoolHREF p.path n.ID⟩, mcsc)) ∨
    (NewInternalID (GenerateNodePoolHREF p.path n.ID) = .ok ⟨GenerateNodePoolHREF p.path n.ID⟩ ∧
      mcsc.PostCSNodePool p n =
        (.ok { n with href := some (GenerateNodePoolHREF p.path n.ID) },
          ⟨mcsc.clusters, mcsc.nodePools.set ⟨GenerateNodePoolHREF p.path n.ID⟩
              { n with href := some (GenerateNodePoolHREF p.path n.ID) }⟩)) := by
  unfold MockClusterServiceClient.PostCSNodePool NewInternalID
  cases hk : kindOfPath (GenerateNodePoolHREF p.path n.ID) <;>
    simp [NodePoolBuilder.Build, NodePoolBuilder.HREF, NodePoolBuilder.Copy, NewNodePool, hk]

/-! ## C1: property injection -/

/-- C1: for every client configuration the bag that `AddProperties` sets on the builder
holds the four baseline keys with value `"true"`; with the shard pin set to `s` the bag
maps `provision_shard_id` to `s` and agrees on every other key with the bag of the same
configuration without the pin. The mock's bag holds the four baseline keys as well. -/
theorem AddProperties_baseline_and_shard (conn : Connection) (shard : Option String)
    (noOpProvision noOpDeprovision : Bool) (builder : ClusterBuilder)
    (mock : MockClusterServiceClient) :
    ∃ bag bagMock : PropertyBag,
      (ClusterServiceClient.AddProperties
        ⟨conn, shard, noOpProvision, noOpDeprovision⟩ builder).properties = some bag ∧
      (mock.AddProperties builder).properties = some bagMock ∧
      bag "provisioner_hostedcluster_step_enabled" = some "true" ∧
      bag "provisioner_managedcluster_step_enabled" = some "true" ∧
      bag "np_provisioner_provision_enabled" = some "true" ∧
      bag "np_provisioner_deprovision_enabled" = some "true" ∧
      bagMock "provisioner_hostedcluster_step_enabled" = some "true" ∧
      bagMock "provisioner_managedcluster_step_enabled" = some "true" ∧
      bagMock "np_provisioner_provision_enabled" = some "true" ∧
      bagMock "np_provisioner_deprovision_enabled" = some "true" ∧
      ∀ s : String, shard = some s →
        bag "provision_shard_id" = some s ∧
        ∃ bagNoPin : PropertyBag,
          (ClusterServiceClient.AddProperties
            ⟨conn, none, noOpProvision, noOpDeprovision⟩ builder).properties = some bagNoPin ∧
          ∀ k : String, k ≠ "provision_shard_id" → bag k = bagNoPin k := by
  refine ⟨_, _, rfl, rfl, ?_, ?_, ?_, ?_, ?_, ?_, ?_, ?_, ?_⟩
  · cases shard <;> cases noOpProvision <;> cases noOpDeprovision <;>
      simp [getDefaultAdditionalProperities, GoMap.set, GoMap.empty]
  · cases shard <;> cases noOpProvision <;> cases noOpDeprovision <;>
      simp [getDefaultAdditionalProperities, GoMap.set, GoMap.empty]
  · cases shard <;> cases noOpProvision <;> cases noOpDeprovision <;>
      simp [getDefaultAdditionalProperities, GoMap.set, GoMap.empty]
  · cases shard <;> cases noOpProvision <;> cases noOpDeprovision <;>
      simp [getDefaultAdditionalProperities, GoMap.set, GoMap.empty]
  · simp [getDefaultAdditionalProperities, GoMap.set, GoMap.empty]
  · simp [getDefaultAdditionalProperities, GoMap.set, GoMap.empty]
  · simp [getDefaultAdditionalProperities, GoMap.set, GoMap.empty]
  · simp [getDefaultAdditionalProperities, GoMap.set, GoMap.empty]
  · intro s hs
    subst hs
    refine ⟨?_, _, rfl, ?_⟩
    · cases noOpProvision <;> cases noOpDeprovision <;> simp [GoMap.set]
    · intro k hk
      cases noOpProvision <;> cases noOpDeprovision <;> simp [GoMap.set, hk]

/-- C1 at a concrete configuration: shard pin `"shard-7"` with the no-op provision flag. -/
theorem AddProperties_baseline_and_shard_witness :
    ∃ bag : PropertyBag,
      (ClusterServiceClient.AddProperties
        ⟨⟨fun _ r => ⟨.ok none, [r]⟩, fun _ r => ⟨.ok none, [r]⟩, fun _ r => ⟨none, [r]⟩⟩,
          some "shard-7", true, false⟩
        NewCluster).properties = some bag ∧
      bag "np_provisioner_provision_enabled" = some "true" ∧
      bag "provision_shard_id" = some "shard-7" ∧
      bag "provisioner_noop_provision" = some "true" ∧
      bag "provisioner_noop_deprovision" = none := by
  obtain ⟨bag, _, h, _, _, _, h3, _, _, _, _, _, hs⟩ :=
    AddProperties_baseline_and_shard
      ⟨fun _ r => ⟨.ok none, [r]⟩, fun _ r => ⟨.ok none, [r]⟩, fun _ r => ⟨none, [r]⟩⟩
      (some "shard-7") true false NewCluster NewMockClusterServiceClient
  refine ⟨bag, h, h3, (hs "shard-7" rfl).1, ?_, ?_⟩
  · have hb := Option.some.inj h
    rw [← hb]
    decide
  · have hb := Option.some.inj h
    rw [← hb]
    decide

/-! ## C2: create-then-get round trip on the mock -/

/-- C2: whenever the mock's `PostCSCluster c` succeeds with the enriched cluster `e`, the
identifier built from `e`'s HREF is valid and `GetCSCluster` at it, on the mock after the
call, returns `e`: the copy of `c` carrying the generated HREF. -/
theorem mock_PostCSCluster_then_GetCSCluster (mcsc : MockClusterServiceClient)
    (c e : Cluster) (h : (mcsc.PostCSCluster c).1 = .ok e) :
    e = { c with href := some (GenerateClusterHREF c.Name) } ∧
    ∃ id : InternalID, NewInternalID e.HREF = .ok id ∧
      (mcsc.PostCSCluster c).2.GetCSCluster id = .ok e := by
  rcases MockClusterServiceClient.PostCSCluster_eq mcsc c with ⟨_, hp⟩ | ⟨hid, hp⟩
  · rw [hp] at h
    cases h
  · rw [hp] at h ⊢
    have he : e = { c with href := some (GenerateClusterHREF c.Name) } :=
      (Except.ok.inj h).symm
    subst he
    refine ⟨rfl, ⟨GenerateClusterHREF c.Name⟩, ?_, ?_⟩
    · simpa [Cluster.HREF] using hid
    · simp [MockClusterServiceClient.GetCSCluster, GoMap.set]

/-- C2 on the empty mock with a cluster named `abc123` that carries no HREF yet: the
cluster read back has the HREF, so it is the enriched copy and not the input. -/
theorem mock_PostCSCluster_then_GetCSCluster_witness :
    (NewMockClusterServiceClient.PostCSCluster ⟨some "1", none, some "abc123", none⟩).1 =
        .ok ⟨some "1", some "/api/clusters_mgmt/v1/clusters/abc123", some "abc123", none⟩ ∧
    ∃ id : InternalID,
      NewInternalID "/api/clusters_mgmt/v1/clusters/abc123" = .ok id ∧
      (NewMockClusterServiceClient.PostCSCluster
          ⟨some "1", none, some "abc123", none⟩).2.GetCSCluster id =
        .ok ⟨some "1", some "/api/clusters_mgmt/v1/clusters/abc123", some "abc123", none⟩ :=
  ⟨rfl,
    (mock_PostCSCluster_then_GetCSCluster NewMockClusterServiceClient
      ⟨some "1", none, some "abc123", none⟩
      ⟨some "1", some "/api/clusters_mgmt/v1/clusters/abc123", some "abc123", none⟩ rfl).2⟩

/-! ## C3: node pools are stored under the derived child identifier -/

/-- C3: whenever the mock's `PostCSNodePool p nodePool` succeeds with the enriched node
pool `e`, the node pool is stored under the identifier whose path is `p`'s path extended
with `/node_pools/` and the node pool's id, that path is a valid identifier, and
`GetCSNodePool` there returns `e`, the copy of the input carrying that path as HREF. -/
theorem mock_PostCSNodePool_then_GetCSNodePool (mcsc : MockClusterServiceClient)
    (p : InternalID) (nodePool e : NodePool)
    (h : (mcsc.PostCSNodePool p nodePool).1 = .ok e) :
    e = { nodePool with href := some (p.path ++ "/node_pools/" ++ nodePool.ID) } ∧
    NewInternalID (p.path ++ "/node_pools/" ++ nodePool.ID) =
      .ok ⟨p.path ++ "/node_pools/" ++ nodePool.ID⟩ ∧
    (mcsc.PostCSNodePool p nodePool).2.nodePools ⟨p.path ++ "/node_pools/" ++ nodePool.ID⟩ =
      some e ∧
    (mcsc.PostCSNodePool p nodePool).2.GetCSNodePool
      ⟨p.path ++ "/node_pools/" ++ nodePool.ID⟩ = .ok e := by
  rcases MockClusterServiceClient.PostCSNodePool_eq mcsc p nodePool with ⟨_, hp⟩ | ⟨hid, hp⟩
  · rw [hp] at h
    cases h
  · rw [hp] at h ⊢
    have he : e = { nodePool with href := some (GenerateNodePoolHREF p.path nodePool.ID) } :=
      (Except.ok.inj h).symm
    subst he
    refine ⟨rfl, hid, ?_, ?_⟩
    · simp [GoMap.set, GenerateNodePoolHREF]
    · simp [MockClusterServiceClient.GetCSNodePool, GoMap.set, GenerateNodePoolHREF]

/-- C3 at the scenario of the specification: under cluster
`/api/clusters_mgmt/v1/clusters/abc123`, the node pool with id `np1` is retrievable at
`/api/clusters_mgmt/v1/clusters/abc123/node_pools/np1`. -/
theorem mock_PostCSNodePool_then_GetCSNodePool_witness :
    (NewMockClusterServiceClient.PostCSNodePool ⟨"/api/clusters_mgmt/v1/clusters/abc123"⟩
        ⟨some "np1", none, some 3⟩).1 =
      .ok ⟨some "np1", some "/api/clusters_mgmt/v1/clusters/abc123/node_pools/np1", some 3⟩ ∧
    (NewMockClusterServiceClient.PostCSNodePool ⟨"/api/clusters_mgmt/v1/clusters/abc123"⟩
        ⟨some "np1", none, some 3⟩).2.GetCSNodePool
        ⟨"/api/clusters_mgmt/v1/clusters/abc123/node_pools/np1"⟩ =
      .ok ⟨some "np1", some "/api/clusters_mgmt/v1/clusters/abc123/node_pools/np1", some 3⟩ :=
  ⟨rfl,
    (mock_PostCSNodePool_then_GetCSNodePool NewMockClusterServiceClient
      ⟨"/api/clusters_mgmt/v1/clusters/abc123"⟩ ⟨some "np1", none, some 3⟩
      ⟨some "np1", some "/api/clusters_mgmt/v1/clusters/abc123/node_pools/np1", some 3⟩
      rfl).2.2.2⟩

/-! ## C4: deleting an absent cluster -/

/-- C4: on the mock, `DeleteCSCluster id` returns the `Not Found` error and leaves the
store unchanged whenever `id` is not a key of the cluster store, also after a successful
delete of another identifier; and after `DeleteCSCluster id` has succeeded, a second
`DeleteCSCluster id` returns `Not Found`. -/
theorem mock_DeleteCSCluster_absent (mcsc : MockClusterServiceClient) (id : InternalID) :
    (mcsc.clusters id = none → mcsc.DeleteCSCluster id = (some errNotFound, mcsc)) ∧
    (∀ other : InternalID, mcsc.clusters id = none →
      (mcsc.DeleteCSCluster other).1 = none →
      (mcsc.DeleteCSCluster other).2.DeleteCSCluster id =
        (some errNotFound, (mcsc.DeleteCSCluster other).2)) ∧
    ((mcsc.DeleteCSCluster id).1 = none →
      (mcsc.DeleteCSCluster id).2.DeleteCSCluster id =
        (some errNotFound, (mcsc.DeleteCSCluster id).2)) := by
  have absent : ∀ m : MockClusterServiceClient, m.clusters id = none →
      m.DeleteCSCluster id = (some errNotFound, m) := by
    intro m hm
    simp [MockClusterServiceClient.DeleteCSCluster, hm, errNotFound]
  refine ⟨absent mcsc, ?_, ?_⟩
  · intro other hid _
    apply absent
    unfold MockClusterServiceClient.DeleteCSCluster
    cases ho : mcsc.clusters other with
    | none => simpa using hid
    | some v =>
      by_cases hk : id = other
      · simp [GoMap.delete, hk]
      · simp [GoMap.delete, hk, hid]
  · intro _
    apply absent
    unfold MockClusterServiceClient.DeleteCSCluster
    cases ho : mcsc.clusters id with
    | none => simpa using ho
    | some v => simp [GoMap.delete]

/-- C4 on a mock holding one cluster: the first delete succeeds, the second one and a
delete of a never-stored identifier return `Not Found`. -/
theorem mock_DeleteCSCluster_absent_witness :
    ((NewMockClusterServiceClient.PostCSCluster
        ⟨none, none, some "abc123", none⟩).2.DeleteCSCluster
        ⟨"/api/clusters_mgmt/v1/clusters/abc123"⟩).1 = none ∧
    (((NewMockClusterServiceClient.PostCSCluster
        ⟨none, none, some "abc123", none⟩).2.DeleteCSCluster
        ⟨"/api/clusters_mgmt/v1/clusters/abc123"⟩).2.DeleteCSCluster
        ⟨"/api/clusters_mgmt/v1/clusters/abc123"⟩).1 = some ⟨"Not Found"⟩ ∧
    (((NewMockClusterServiceClient.PostCSCluster
        ⟨none, none, some "abc123", none⟩).2.DeleteCSCluster
        ⟨"/api/clusters_mgmt/v1/clusters/abc123"⟩).2.DeleteCSCluster
        ⟨"/api/clusters_mgmt/v1/clusters/other"⟩).1 = some ⟨"Not Found"⟩ :=
  ⟨rfl,
    congrArg Prod.fst
      ((mock_DeleteCSCluster_absent
        (NewMockClusterServiceClient.PostCSCluster ⟨none, none, some "abc123", none⟩).2
        ⟨"/api/clusters_mgmt/v1/clusters/abc123"⟩).2.2 rfl),
    congrArg Prod.fst
      ((mock_DeleteCSCluster_absent
        (NewMockClusterServiceClient.PostCSCluster ⟨none, none, some "abc123", none⟩).2
        ⟨"/api/clusters_mgmt/v1/clusters/other"⟩).2.1
        ⟨"/api/clusters_mgmt/v1/clusters/abc123"⟩ rfl rfl)⟩

/-! ## C5: updating a cluster -/

/-- C5: on the mock, `UpdateCSCluster id c` fails, with the `Not Found` error and the
store unchanged, exactly when `id` is not a key of the cluster store; otherwise it
succeeds, returns `c`, `GetCSCluster id` then returns `c`, and every other entry of the
cluster store and the node-pool store are unchanged. -/
theorem mock_UpdateCSCluster_spec (mcsc : MockClusterServiceClient) (id : InternalID)
    (c : Cluster) :
    (mcsc.clusters id = none → mcsc.UpdateCSCluster id c = (.error errNotFound, mcsc)) ∧
    ((∃ err, (mcsc.UpdateCSCluster id c).1 = .error err) ↔ mcsc.clusters id = none) ∧
    (∀ old : Cluster, mcsc.clusters id = some old →
      (mcsc.UpdateCSCluster id c).1 = .ok c ∧
      (mcsc.UpdateCSCluster id c).2.GetCSCluster id = .ok c ∧
      (∀ k : InternalID, k ≠ id →
        (mcsc.UpdateCSCluster id c).2.clusters k = mcsc.clusters k ∧
        (mcsc.UpdateCSCluster id c).2.GetCSCluster k = mcsc.GetCSCluster k) ∧
      (mcsc.UpdateCSCluster id c).2.nodePools = mcsc.nodePools) := by
  unfold MockClusterServiceClient.UpdateCSCluster
  cases hk : mcsc.clusters id with
  | none => simp [errNotFound]
  | some old =>
    refine ⟨by simp, by simp, ?_⟩
    intro _ _
    refine ⟨rfl, by simp [MockClusterServiceClient.GetCSCluster, GoMap.set], ?_, rfl⟩
    intro k hne
    simp [MockClusterServiceClient.GetCSCluster, GoMap.set, hne]

/-- C5 on a mock holding the cluster `abc123`: the update succeeds and is read back, and
an update of a never-stored identifier returns `Not Found`. -/
theorem mock_UpdateCSCluster_spec_witness :
    ((NewMockClusterServiceClient.PostCSCluster
        ⟨none, none, some "abc123", none⟩).2.UpdateCSCluster
        ⟨"/api/clusters_mgmt/v1/clusters/abc123"⟩ ⟨some "new", none, none, none⟩).1 =
      .ok ⟨some "new", none, none, none⟩ ∧
    ((NewMockClusterServiceClient.PostCSCluster
        ⟨none, none, some "abc123", none⟩).2.UpdateCSCluster
        ⟨"/api/clusters_mgmt/v1/clusters/abc123"⟩
        ⟨some "new", none, none, none⟩).2.GetCSCluster
        ⟨"/api/clusters_mgmt/v1/clusters/abc123"⟩ = .ok ⟨some "new", none, none, none⟩ ∧
    (NewMockClusterServiceClient.UpdateCSCluster
        ⟨"/api/clusters_mgmt/v1/clusters/abc123"⟩ ⟨some "new", none, none, none⟩).1 =
      .error ⟨"Not Found"⟩ :=
  ⟨((mock_UpdateCSCluster_spec
        (NewMockClusterServiceClient.PostCSCluster ⟨none, none, some "abc123", none⟩).2
        ⟨"/api/clusters_mgmt/v1/clusters/abc123"⟩ ⟨some "new", none, none, none⟩).2.2
        ⟨none, some "/api/clusters_mgmt/v1/clusters/abc123", some "abc123", none⟩ rfl).1,
    ((mock_UpdateCSCluster_spec
        (NewMockClusterServiceClient.PostCSCluster ⟨none, none, some "abc123", none⟩).2
        ⟨"/api/clusters_mgmt/v1/clusters/abc123"⟩ ⟨some "new", none, none, none⟩).2.2
        ⟨none, some "/api/clusters_mgmt/v1/clusters/abc123", some "abc123", none⟩ rfl).2.1,
    congrArg Prod.fst
      ((mock_UpdateCSCluster_spec NewMockClusterServiceClient
        ⟨"/api/clusters_mgmt/v1/clusters/abc123"⟩ ⟨some "new", none, none, none⟩).1 rfl)⟩

/-! ## C6: what the mock returns for an absent identifier -/

/-- C6 (divergence): on the empty mock, `GetCSCluster` and `GetCSNodePool` at an absent
identifier return the error `empty response body`, the very error the live client returns
for a response without body, while `UpdateCSCluster` and `DeleteCSCluster` at the same
absent identifier return `Not Found`; the two errors differ. -/
theorem mock_Get_absent_returns_empty_body :
    NewMockClusterServiceClient.GetCSCluster ⟨"/api/clusters_mgmt/v1/clusters/abc123"⟩ =
      .error errEmptyBody ∧
    NewMockClusterServiceClient.GetCSNodePool
      ⟨"/api/clusters_mgmt/v1/clusters/abc123/node_pools/np1"⟩ = .error errEmptyBody ∧
    (NewMockClusterServiceClient.UpdateCSCluster ⟨"/api/clusters_mgmt/v1/clusters/abc123"⟩
      ⟨none, none, some "abc123", none⟩).1 = .error errNotFound ∧
    (NewMockClusterServiceClient.DeleteCSCluster
      ⟨"/api/clusters_mgmt/v1/clusters/abc123"⟩).1 = some errNotFound ∧
    (ClusterServiceClient.GetCSCluster
      ⟨⟨fun _ r => ⟨.ok none, [r]⟩, fun _ r => ⟨.ok none, [r]⟩, fun _ r => ⟨none, [r]⟩⟩,
        none, false, false⟩
      ⟨false⟩ ⟨"/api/clusters_mgmt/v1/clusters/abc123"⟩).1 = .error errEmptyBody ∧
    errEmptyBody ≠ errNotFound :=
  ⟨rfl, rfl, rfl, rfl, rfl, by decide⟩

/-! ## C7: the identifier assigned by the mock's `PostCSCluster` -/

/-- C7 (counterexample): after a cluster named `abc123` has been created on the empty
mock, creating a second cluster with the same name succeeds, the identifier assigned to
it is already a key of the cluster store, and the cluster stored there before the call is
no longer the one `GetCSCluster` returns. -/
theorem mock_PostCSCluster_not_fresh :
    ((NewMockClusterServiceClient.PostCSCluster
        ⟨some "1", none, some "abc123", none⟩).2.PostCSCluster
        ⟨some "2", none, some "abc123", none⟩).1 =
      .ok ⟨some "2", some "/api/clusters_mgmt/v1/clusters/abc123", some "abc123", none⟩ ∧
    NewInternalID (Cluster.HREF
        ⟨some "2", some "/api/clusters_mgmt/v1/clusters/abc123", some "abc123", none⟩) =
      .ok ⟨"/api/clusters_mgmt/v1/clusters/abc123"⟩ ∧
    (NewMockClusterServiceClient.PostCSCluster
        ⟨some "1", none, some "abc123", none⟩).2.clusters
        ⟨"/api/clusters_mgmt/v1/clusters/abc123"⟩ =
      some ⟨some "1", some "/api/clusters_mgmt/v1/clusters/abc123", some "abc123", none⟩ ∧
    (NewMockClusterServiceClient.PostCSCluster
        ⟨some "1", none, some "abc123", none⟩).2.GetCSCluster
        ⟨"/api/clusters_mgmt/v1/clusters/abc123"⟩ =
      .ok ⟨some "1", some "/api/clusters_mgmt/v1/clusters/abc123", some "abc123", none⟩ ∧
    ((NewMockClusterServiceClient.PostCSCluster
        ⟨some "1", none, some "abc123", none⟩).2.PostCSCluster
        ⟨some "2", none, some "abc123", none⟩).2.GetCSCluster
        ⟨"/api/clusters_mgmt/v1/clusters/abc123"⟩ =
      .ok ⟨some "2", some "/api/clusters_mgmt/v1/clusters/abc123", some "abc123", none⟩ ∧
    (⟨some "1", some "/api/clusters_mgmt/v1/clusters/abc123", some "abc123", none⟩ : Cluster) ≠
      ⟨some "2", some "/api/clusters_mgmt/v1/clusters/abc123", some "abc123", none⟩ :=
  ⟨rfl, rfl, rfl, rfl, rfl, fun h => absurd (congrArg Cluster.id h) (by decide)⟩

/-- C7 (amended): whenever the mock's `PostCSCluster c` succeeds with `e`, the identifier
assigned is the one built from the HREF generated from `c`'s name, `e` is stored there,
and every entry stored under a different identifier is returned unchanged by
`GetCSCluster`; if the assigned identifier was not a key before the call, every cluster
stored before the call is still returned unchanged. -/
theorem mock_PostCSCluster_frame (mcsc : MockClusterServiceClient) (c e : Cluster)
    (h : (mcsc.PostCSCluster c).1 = .ok e) :
    NewInternalID e.HREF = .ok ⟨GenerateClusterHREF c.Name⟩ ∧
    (mcsc.PostCSCluster c).2.clusters ⟨GenerateClusterHREF c.Name⟩ = some e ∧
    (∀ k : InternalID, k ≠ ⟨GenerateClusterHREF c.Name⟩ →
      (mcsc.PostCSCluster c).2.clusters k = mcsc.clusters k ∧
      (mcsc.PostCSCluster c).2.GetCSCluster k = mcsc.GetCSCluster k) ∧
    (mcsc.clusters ⟨GenerateClusterHREF c.Name⟩ = none →
      ∀ (k : InternalID) (old : Cluster), mcsc.clusters k = some old →
        (mcsc.PostCSCluster c).2.GetCSCluster k = .ok old) ∧
    (mcsc.PostCSCluster c).2.nodePools = mcsc.nodePools := by
  rcases MockClusterServiceClient.PostCSCluster_eq mcsc c with ⟨_, hp⟩ | ⟨hid, hp⟩
  · rw [hp] at h
    cases h
  · rw [hp] at h ⊢
    have he : e = { c with href := some (GenerateClusterHREF c.Name) } :=
      (Except.ok.inj h).symm
    subst he
    have frame : ∀ k : InternalID, k ≠ ⟨GenerateClusterHREF c.Name⟩ →
        GoMap.set mcsc.clusters ⟨GenerateClusterHREF c.Name⟩
          { c with href := some (GenerateClusterHREF c.Name) } k = mcsc.clusters k :=
      fun k hk => GoMap.set_other _ _ _ _ hk
    refine ⟨by simpa [Cluster.HREF] using hid, GoMap.set_same _ _ _, ?_, ?_, rfl⟩
    · intro k hk
      exact ⟨frame k hk, by simp only [MockClusterServiceClient.GetCSCluster, frame k hk]⟩
    · intro hfresh k old hold
      have hk : k ≠ ⟨GenerateClusterHREF c.Name⟩ := by
        intro heq
        rw [heq, hfresh] at hold
        cases hold
      simp only [MockClusterServiceClient.GetCSCluster, frame k hk, hold]

/-- C7 (amended) on a mock holding the cluster `abc123`: creating the cluster `xyz789`
leaves the entry at `abc123` as it was. -/
theorem mock_PostCSCluster_frame_witness :
    ((NewMockClusterServiceClient.PostCSCluster
        ⟨some "1", none, some "abc123", none⟩).2.PostCSCluster
        ⟨some "2", none, some "xyz789", none⟩).2.GetCSCluster
        ⟨"/api/clusters_mgmt/v1/clusters/abc123"⟩ =
      .ok ⟨some "1", some "/api/clusters_mgmt/v1/clusters/abc123", some "abc123", none⟩ :=
  (mock_PostCSCluster_frame
    (NewMockClusterServiceClient.PostCSCluster ⟨some "1", none, some "abc123", none⟩).2
    ⟨some "2", none, some "xyz789", none⟩
    ⟨some "2", some "/api/clusters_mgmt/v1/clusters/xyz789", some "xyz789", none⟩
    rfl).2.2.2.1 rfl ⟨"/api/clusters_mgmt/v1/clusters/abc123"⟩
    ⟨some "1", some "/api/clusters_mgmt/v1/clusters/abc123", some "abc123", none⟩ rfl


/-! ## C8: outbound calls of the live client -/

/-- C8 (counterexample): on a connection that puts every request it is handed on the wire
once, `GetCSNodePool` called with a Cluster-kind identifier, and `DeleteCSCluster` called
with the zero-value identifier, return an error without sending anything: zero outbound
calls, where the same `GetCSNodePool` with a NodePool-kind identifier sends one. -/
theorem live_kind_mismatch_sends_nothing :
    (ClusterServiceClient.GetCSNodePool
      ⟨⟨fun _ r => ⟨.ok none, [r]⟩, fun _ r => ⟨.ok (some ⟨some "np1", none, none⟩), [r]⟩,
        fun _ r => ⟨none, [r]⟩⟩, none, false, false⟩
      ⟨false⟩ ⟨"/api/clusters_mgmt/v1/clusters/abc123"⟩).2.length = 0 ∧
    (ClusterServiceClient.GetCSNodePool
      ⟨⟨fun _ r => ⟨.ok none, [r]⟩, fun _ r => ⟨.ok (some ⟨some "np1", none, none⟩), [r]⟩,
        fun _ r => ⟨none, [r]⟩⟩, none, false, false⟩
      ⟨false⟩ ⟨"/api/clusters_mgmt/v1/clusters/abc123"⟩).1 =
      .error ⟨"OCM path is not a node pool: /api/clusters_mgmt/v1/clusters/abc123"⟩ ∧
    (ClusterServiceClient.DeleteCSCluster
      ⟨⟨fun _ r => ⟨.ok none, [r]⟩, fun _ r => ⟨.ok none, [r]⟩, fun _ r => ⟨none, [r]⟩⟩,
        none, false, false⟩
      ⟨false⟩ ⟨""⟩).2.length = 0 ∧
    (ClusterServiceClient.GetCSNodePool
      ⟨⟨fun _ r => ⟨.ok none, [r]⟩, fun _ r => ⟨.ok (some ⟨some "np1", none, none⟩), [r]⟩,
        fun _ r => ⟨none, [r]⟩⟩, none, false, false⟩
      ⟨false⟩ ⟨"/api/clusters_mgmt/v1/clusters/abc123/node_pools/np1"⟩).2.length = 1 :=
  ⟨rfl, rfl, rfl, rfl⟩

/-- C8 (amended): a live operation calls `SendContext` once, with the caller's context,
when its identifier passes the kind accessor the operation uses (`PostCSCluster`, which
takes no identifier, always does), and not at all when the accessor rejects it: what goes
on the wire during the operation is what that one `SendContext` puts there, and nothing
after a rejection. On a connection that puts every request on the wire exactly once this
is one outbound call, and none after a rejection. -/
theorem live_outbound_traffic (csc : ClusterServiceClient) (ctx : Context)
    (id : InternalID) (cluster : Cluster) (nodePool : NodePool) :
    ((csc.PostCSCluster ctx cluster).2 =
        (csc.Conn.sendCluster ctx
          ⟨Method.POST, "/api/clusters_mgmt/v1/clusters", Payload.cluster cluster⟩).wire ∧
      (csc.GetCSCluster ctx id).2 =
        (match id.GetClusterClient with
          | some client => (csc.Conn.sendCluster ctx ⟨Method.GET, client, Payload.empty⟩).wire
          | none => []) ∧
      (csc.UpdateCSCluster ctx id cluster).2 =
        (match id.GetClusterClient with
          | some client =>
            (csc.Conn.sendCluster ctx ⟨Method.PATCH, client, Payload.cluster cluster⟩).wire
          | none => []) ∧
      (csc.DeleteCSCluster ctx id).2 =
        (match id.GetClusterClient with
          | some client =>
            (csc.Conn.sendDelete ctx ⟨Method.DELETE, client, Payload.empty⟩).wire
          | none => []) ∧
      (csc.PostCSNodePool ctx id nodePool).2 =
        (match id.GetClusterClient with
          | some client =>
            (csc.Conn.sendNodePool ctx
              ⟨Method.POST, client ++ "/node_pools", Payload.nodePool nodePool⟩).wire
          | none => []) ∧
      (csc.GetCSNodePool ctx id).2 =
        (match id.GetNodePoolClient with
          | some client =>
            (csc.Conn.sendNodePool ctx ⟨Method.GET, client, Payload.empty⟩).wire
          | none => []) ∧
      (csc.UpdateCSNodePool ctx id nodePool).2 =
        (match id.GetNodePoolClient with
          | some client =>
            (csc.Conn.sendNodePool ctx ⟨Method.PATCH, client, Payload.nodePool nodePool⟩).wire
          | none => []) ∧
      (csc.DeleteCSNodePool ctx id).2 =
        (match id.GetNodePoolClient with
          | some client =>
            (csc.Conn.sendDelete ctx ⟨Method.DELETE, client, Payload.empty⟩).wire
          | none => [])) ∧
    (((∀ c r, (csc.Conn.sendCluster c r).wire.length = 1) ∧
        (∀ c r, (csc.Conn.sendNodePool c r).wire.length = 1) ∧
        (∀ c r, (csc.Conn.sendDelete c r).wire.length = 1)) →
      (csc.PostCSCluster ctx cluster).2.length = 1 ∧
      (csc.GetCSCluster ctx id).2.length = (if id.GetClusterClient.isSome then 1 else 0) ∧
      (csc.UpdateCSCluster ctx id cluster).2.length =
        (if id.GetClusterClient.isSome then 1 else 0) ∧
      (csc.DeleteCSCluster ctx id).2.length =
        (if id.GetClusterClient.isSome then 1 else 0) ∧
      (csc.PostCSNodePool ctx id nodePool).2.length =
        (if id.GetClusterClient.isSome then 1 else 0) ∧
      (csc.GetCSNodePool ctx id).2.length =
        (if id.GetNodePoolClient.isSome then 1 else 0) ∧
      (csc.UpdateCSNodePool ctx id nodePool).2.length =
        (if id.GetNodePoolClient.isSome then 1 else 0) ∧
      (csc.DeleteCSNodePool ctx id).2.length =
        (if id.GetNodePoolClient.isSome then 1 else 0)) := by
  have traffic :
      (csc.PostCSCluster ctx cluster).2 =
        (csc.Conn.sendCluster ctx
          ⟨Method.POST, "/api/clusters_mgmt/v1/clusters", Payload.cluster cluster⟩).wire ∧
      (csc.GetCSCluster ctx id).2 =
        (match id.GetClusterClient with
          | some client => (csc.Conn.sendCluster ctx ⟨Method.GET, client, Payload.empty⟩).wire
          | none => []) ∧
      (csc.UpdateCSCluster ctx id cluster).2 =
        (match id.GetClusterClient with
          | some client =>
            (csc.Conn.sendCluster ctx ⟨Method.PATCH, client, Payload.cluster cluster⟩).wire
          | none => []) ∧
      (csc.DeleteCSCluster ctx id).2 =
        (match id.GetClusterClient with
          | some client =>
            (csc.Conn.sendDelete ctx ⟨Method.DELETE, client, Payload.empty⟩).wire
          | none => []) ∧
      (csc.PostCSNodePool ctx id nodePool).2 =
        (match id.GetClusterClient with
          | some client =>
            (csc.Conn.sendNodePool ctx
              ⟨Method.POST, client ++ "/node_pools", Payload.nodePool nodePool⟩).wire
          | none => []) ∧
      (csc.GetCSNodePool ctx id).2 =
        (match id.GetNodePoolClient with
          | some client =>
            (csc.Conn.sendNodePool ctx ⟨Method.GET, client, Payload.empty⟩).wire
          | none => []) ∧
      (csc.UpdateCSNodePool ctx id nodePool).2 =
        (match id.GetNodePoolClient with
          | some client =>
            (csc.Conn.sendNodePool ctx ⟨Method.PATCH, client, Payload.nodePool nodePool⟩).wire
          | none => []) ∧
      (csc.DeleteCSNodePool ctx id).2 =
        (match id.GetNodePoolClient with
          | some client =>
            (csc.Conn.sendDelete ctx ⟨Method.DELETE, client, Payload.empty⟩).wire
          | none => []) := by
    refine ⟨?_, ?_, ?_, ?_, ?_, ?_, ?_, ?_⟩
    · unfold ClusterServiceClient.PostCSCluster
      dsimp only
      split <;> rfl
    · unfold ClusterServiceClient.GetCSCluster
      cases id.GetClusterClient with
      | none => rfl
      | some client => dsimp only; split <;> rfl
    · unfold ClusterServiceClient.UpdateCSCluster
      cases id.GetClusterClient with
      | none => rfl
      | some client => dsimp only; split <;> rfl
    · unfold ClusterServiceClient.DeleteCSCluster
      cases id.GetClusterClient with
      | none => rfl
      | some client => rfl
    · unfold ClusterServiceClient.PostCSNodePool
      cases id.GetClusterClient with
      | none => rfl
      | some client => dsimp only; split <;> rfl
    · unfold ClusterServiceClient.GetCSNodePool
      cases id.GetNodePoolClient with
      | none => rfl
      | some client => dsimp only; split <;> rfl
    · unfold ClusterServiceClient.UpdateCSNodePool
      cases id.GetNodePoolClient with
      | none => rfl
      | some client => dsimp only; split <;> rfl
    · unfold ClusterServiceClient.DeleteCSNodePool
      cases id.GetNodePoolClient with
      | none => rfl
      | some client => rfl
  refine ⟨traffic, ?_⟩
  rintro ⟨hc, hn, hd⟩
  obtain ⟨h1, h2, h3, h4, h5, h6, h7, h8⟩ := traffic
  rw [h1, h2, h3, h4, h5, h6, h7, h8]
  refine ⟨hc _ _, ?_, ?_, ?_, ?_, ?_, ?_, ?_⟩
  · cases id.GetClusterClient <;> simp [hc]
  · cases id.GetClusterClient <;> simp [hc]
  · cases id.GetClusterClient <;> simp [hd]
  · cases id.GetClusterClient <;> simp [hn]
  · cases id.GetNodePoolClient <;> simp [hn]
  · cases id.GetNodePoolClient <;> simp [hn]
  · cases id.GetNodePoolClient <;> simp [hd]

/-- C8 (amended) on a connection that retries a failing request twice and sends nothing
under a cancelled context: one `PostCSCluster` puts three requests on the wire, one
`GetCSCluster` with a cancelled context and a Cluster-kind identifier puts none, and one
`GetCSCluster` with a NodePool-kind identifier puts none whatever the context. -/
theorem live_outbound_traffic_witness :
    (ClusterServiceClient.PostCSCluster
      ⟨⟨fun c r => ⟨.error ⟨"status is 503"⟩, if c.cancelled then [] else [r, r, r]⟩,
        fun c r => ⟨.ok none, if c.cancelled then [] else [r]⟩,
        fun c r => ⟨none, if c.cancelled then [] else [r]⟩⟩, none, false, false⟩
      ⟨false⟩ ⟨none, none, some "abc123", none⟩).2.length = 3 ∧
    (ClusterServiceClient.GetCSCluster
      ⟨⟨fun c r => ⟨.error ⟨"status is 503"⟩, if c.cancelled then [] else [r, r, r]⟩,
        fun c r => ⟨.ok none, if c.cancelled then [] else [r]⟩,
        fun c r => ⟨none, if c.cancelled then [] else [r]⟩⟩, none, false, false⟩
      ⟨true⟩ ⟨"/api/clusters_mgmt/v1/clusters/abc123"⟩).2.length = 0 ∧
    (ClusterServiceClient.GetCSCluster
      ⟨⟨fun c r => ⟨.error ⟨"status is 503"⟩, if c.cancelled then [] else [r, r, r]⟩,
        fun c r => ⟨.ok none, if c.cancelled then [] else [r]⟩,
        fun c r => ⟨none, if c.cancelled then [] else [r]⟩⟩, none, false, false⟩
      ⟨false⟩ ⟨"/api/clusters_mgmt/v1/clusters/abc123/node_pools/np1"⟩).2.length = 0 :=
  ⟨(congrArg List.length
      (live_outbound_traffic
        ⟨⟨fun c r => ⟨.error ⟨"status is 503"⟩, if c.cancelled then [] else [r, r, r]⟩,
          fun c r => ⟨.ok none, if c.cancelled then [] else [r]⟩,
          fun c r => ⟨none, if c.cancelled then [] else [r]⟩⟩, none, false, false⟩
        ⟨false⟩ ⟨"/api/clusters_mgmt/v1/clusters/abc123"⟩
        ⟨none, none, some "abc123", none⟩ ⟨none, none, none⟩).1.1).trans rfl,
    (congrArg List.length
      (live_outbound_traffic
        ⟨⟨fun c r => ⟨.error ⟨"status is 503"⟩, if c.cancelled then [] else [r, r, r]⟩,
          fun c r => ⟨.ok none, if c.cancelled then [] else [r]⟩,
          fun c r => ⟨none, if c.cancelled then [] else [r]⟩⟩, none, false, false⟩
        ⟨true⟩ ⟨"/api/clusters_mgmt/v1/clusters/abc123"⟩
        ⟨none, none, some "abc123", none⟩ ⟨none, none, none⟩).1.2.1).trans rfl,
    (congrArg List.length
      (live_outbound_traffic
        ⟨⟨fun c r => ⟨.error ⟨"status is 503"⟩, if c.cancelled then [] else [r, r, r]⟩,
          fun c r => ⟨.ok none, if c.cancelled then [] else [r]⟩,
          fun c r => ⟨none, if c.cancelled then [] else [r]⟩⟩, none, false, false⟩
        ⟨false⟩ ⟨"/api/clusters_mgmt/v1/clusters/abc123/node_pools/np1"⟩
        ⟨none, none, some "abc123", none⟩ ⟨none, none, none⟩).1.2.1).trans rfl⟩

/-! ## C9: the live client's result comes from the outbound call -/

/-- C9: with an identifier of the kind the operation requires, and whatever the context,
the result of the live `GetCSCluster`, `PostCSCluster`, `UpdateCSCluster`,
`GetCSNodePool`, `PostCSNodePool` and `UpdateCSNodePool` is the response of its one
outbound call read by `resultOfCall`: the call's error unchanged, `empty response body`
when the response has no body, and the body with no error otherwise. -/
theorem live_result_from_outbound_call (csc : ClusterServiceClient) (ctx : Context)
    (clusterID nodePoolID : InternalID) (cluster : Cluster) (nodePool : NodePool)
    (hc : kindOfPath clusterID.path = some Kind.Cluster)
    (hn : kindOfPath nodePoolID.path = some Kind.NodePool) :
    (csc.GetCSCluster ctx clusterID).1 =
      resultOfCall
        (csc.Conn.sendCluster ctx ⟨Method.GET, clusterID.path, Payload.empty⟩).response ∧
    (csc.PostCSCluster ctx cluster).1 =
      resultOfCall (csc.Conn.sendCluster ctx
        ⟨Method.POST, "/api/clusters_mgmt/v1/clusters", Payload.cluster cluster⟩).response ∧
    (csc.UpdateCSCluster ctx clusterID cluster).1 =
      resultOfCall (csc.Conn.sendCluster ctx
        ⟨Method.PATCH, clusterID.path, Payload.cluster cluster⟩).response ∧
    (csc.GetCSNodePool ctx nodePoolID).1 =
      resultOfCall
        (csc.Conn.sendNodePool ctx ⟨Method.GET, nodePoolID.path, Payload.empty⟩).response ∧
    (csc.PostCSNodePool ctx clusterID nodePool).1 =
      resultOfCall (csc.Conn.sendNodePool ctx
        ⟨Method.POST, clusterID.path ++ "/node_pools", Payload.nodePool nodePool⟩).response ∧
    (csc.UpdateCSNodePool ctx nodePoolID nodePool).1 =
      resultOfCall (csc.Conn.sendNodePool ctx
        ⟨Method.PATCH, nodePoolID.path, Payload.nodePool nodePool⟩).response := by
  have hcc : clusterID.GetClusterClient = some clusterID.path := by
    simp [InternalID.GetClusterClient, hc]
  have hnc : nodePoolID.GetNodePoolClient = some nodePoolID.path := by
    simp [InternalID.GetNodePoolClient, hn]
  refine ⟨?_, ?_, ?_, ?_, ?_, ?_⟩
  · unfold ClusterServiceClient.GetCSCluster
    rw [hcc]
    dsimp only
    split <;> simp_all [resultOfCall]
  · unfold ClusterServiceClient.PostCSCluster
    dsimp only
    split <;> simp_all [resultOfCall]
  · unfold ClusterServiceClient.UpdateCSCluster
    rw [hcc]
    dsimp only
    split <;> simp_all [resultOfCall]
  · unfold ClusterServiceClient.GetCSNodePool
    rw [hnc]
    dsimp only
    split <;> simp_all [resultOfCall]
  · unfold ClusterServiceClient.PostCSNodePool
    rw [hcc]
    dsimp only
    split <;> simp_all [resultOfCall]
  · unfold ClusterServiceClient.UpdateCSNodePool
    rw [hnc]
    dsimp only
    split <;> simp_all [resultOfCall]

/-- C9 on a connection whose cluster calls fail with `connection refused` and whose
node-pool calls answer without a body: the transport error comes back unchanged, the
missing body becomes `empty response body`. -/
theorem live_result_from_outbound_call_witness :
    (ClusterServiceClient.GetCSCluster
      ⟨⟨fun _ r => ⟨.error ⟨"connection refused"⟩, [r]⟩, fun _ r => ⟨.ok none, [r]⟩,
        fun _ r => ⟨none, [r]⟩⟩, none, false, false⟩
      ⟨false⟩ ⟨"/api/clusters_mgmt/v1/clusters/abc123"⟩).1 =
      .error ⟨"connection refused"⟩ ∧
    (ClusterServiceClient.GetCSNodePool
      ⟨⟨fun _ r => ⟨.error ⟨"connection refused"⟩, [r]⟩, fun _ r => ⟨.ok none, [r]⟩,
        fun _ r => ⟨none, [r]⟩⟩, none, false, false⟩
      ⟨false⟩ ⟨"/api/clusters_mgmt/v1/clusters/abc123/node_pools/np1"⟩).1 =
      .error ⟨"empty response body"⟩ :=
  ⟨(live_result_from_outbound_call
      ⟨⟨fun _ r => ⟨.error ⟨"connection refused"⟩, [r]⟩, fun _ r => ⟨.ok none, [r]⟩,
        fun _ r => ⟨none, [r]⟩⟩, none, false, false⟩
      ⟨false⟩ ⟨"/api/clusters_mgmt/v1/clusters/abc123"⟩
      ⟨"/api/clusters_mgmt/v1/clusters/abc123/node_pools/np1"⟩
      ⟨none, none, none, none⟩ ⟨none, none, none⟩ (by decide) (by decide)).1,
    (live_result_from_outbound_call
      ⟨⟨fun _ r => ⟨.error ⟨"connection refused"⟩, [r]⟩, fun _ r => ⟨.ok none, [r]⟩,
        fun _ r => ⟨none, [r]⟩⟩, none, false, false⟩
      ⟨false⟩ ⟨"/api/clusters_mgmt/v1/clusters/abc123"⟩
      ⟨"/api/clusters_mgmt/v1/clusters/abc123/node_pools/np1"⟩
      ⟨none, none, none, none⟩ ⟨none, none, none⟩ (by decide) (by decide)).2.2.2.1⟩

/-! ## C10: the shutdown sequence of `FrontendOpts.Run` -/

end AroHcp
